import Mathlib

/-!
Verification of the minimal OCPP 1.6 charge-point implementation
(package ocpp16_min: common.py, server.py, client.py).

The Python values that flow through the protocol are JSON-decoded data:
None, bools, ints, strings, lists and dicts (floats never arise in the
messages the claims are about and are not modelled). Python quirks that
matter to the checks in the source are embedded explicitly:
`isinstance(x, int)` is true for bools, and `True == 1`, `False == 0`.
-/

namespace OCPP

/-- JSON-decoded Python value, as produced by json.loads in common.parse_message. -/
inductive JsonValue where
  | jNull
  | jBool (b : Bool)
  | jInt (n : Int)
  | jStr (s : String)
  | jArr (items : List JsonValue)
  | jObj (fields : List (String × JsonValue))

/-- Python equality of a JSON value against an int literal:
ints compare by value, True equals 1 and False equals 0, everything else differs. -/
def pyEqInt : JsonValue → Int → Bool
  | .jInt m, n => m == n
  | .jBool b, n => (if b then (1 : Int) else 0) == n
  | _, _ => false

/-- Python isinstance(x, int): true for ints and for bools (bool is a subclass of int). -/
def isPyInt : JsonValue → Bool
  | .jInt _ => true
  | .jBool _ => true
  | _ => false

/-- The int value of a Python int (a bool counts as 0 or 1). -/
def pyToInt : JsonValue → Option Int
  | .jInt n => some n
  | .jBool b => some (if b then 1 else 0)
  | _ => none

/-- Python dict .get(key): the value stored at the key, if present. -/
def pyGet (fields : List (String × JsonValue)) (k : String) : Option JsonValue :=
  (fields.find? (fun kv => kv.1 == k)).map (fun kv => kv.2)

/-- Python x == "literal" for a possibly missing value
(only a str ever equals a str; a missing key gives None, which differs). -/
def optEqStr (v : Option JsonValue) (s : String) : Bool :=
  match v with
  | some (.jStr t) => t == s
  | _ => false

/-- Python `isinstance(x, str) and x` on a possibly missing value:
true exactly for a non-empty string. -/
def isNonEmptyStrOpt : Option JsonValue → Bool
  | some (.jStr s) => !(s == "")
  | _ => false

/-- Python isinstance(x, int) on a possibly missing value. -/
def isPyIntOpt : Option JsonValue → Bool
  | some v => isPyInt v
  | none => false

/-- Python `x in (0, 1)` on a possibly missing value (used for connectorId). -/
def inConnectorRange : Option JsonValue → Bool
  | some v => pyEqInt v 0 || pyEqInt v 1
  | none => false

/-- common.make_call: the CALL frame [2, uid, action, payload]. -/
def make_call (uid action : String) (payload : List (String × JsonValue)) : JsonValue :=
  .jArr [.jInt 2, .jStr uid, .jStr action, .jObj payload]

/-- common.make_call_result: the CALLRESULT frame [3, uid, payload]. -/
def make_call_result (uid : String) (payload : List (String × JsonValue)) : JsonValue :=
  .jArr [.jInt 3, .jStr uid, .jObj payload]

/-- common.is_call: isinstance(msg, list) and len(msg) == 4 and msg[0] == 2. -/
def is_call : JsonValue → Bool
  | .jArr (x :: rest) => (x :: rest).length == 4 && pyEqInt x 2
  | _ => false

/-- common.is_call_result: isinstance(msg, list) and len(msg) >= 3 and msg[0] == 3. -/
def is_call_result : JsonValue → Bool
  | .jArr (x :: rest) => decide ((x :: rest).length ≥ 3) && pyEqInt x 3
  | _ => false

/-- common.validate_call: the six envelope checks, in source order, each
raising ValueError with its own message; on success the (uid, action, payload)
triple. The match arms reproduce the source order: not a list, length differing
from 4, then the destructured element checks. -/
def validate_call : JsonValue → Except String (String × String × List (String × JsonValue))
  | .jArr [messageType, uidV, actionV, payloadV] =>
    if !(pyEqInt messageType 2) then .error "MessageTypeId must be 2 (CALL)"
    else
      match uidV with
      | .jStr uid =>
        if uid == "" then .error "CALL uid must be a non-empty string"
        else
          match actionV with
          | .jStr action =>
            if action == "" then .error "CALL action must be a non-empty string"
            else
              match payloadV with
              | .jObj payload => .ok (uid, action, payload)
              | _ => .error "CALL payload must be an object"
          | _ => .error "CALL action must be a non-empty string"
      | _ => .error "CALL uid must be a non-empty string"
  | .jArr _ => .error "CALL frame must have length 4"
  | _ => .error "frame must be a JSON list"

/-- common.parse_call_result_payload: requires a list of length at least 3 whose
first element equals 3 and whose third element is a dict; returns that dict. -/
def parse_call_result_payload : JsonValue → Except String (List (String × JsonValue))
  | .jArr (m0 :: _ :: m2 :: _) =>
    if !(pyEqInt m0 3) then .error "CALLRESULT frame expected"
    else
      match m2 with
      | .jObj p => .ok p
      | _ => .error "CALLRESULT payload must be an object"
  | _ => .error "CALLRESULT frame expected"

/-- The reason substring the tests assert for a non-list frame. -/
def reasonNotAList : String := "frame must be a JSON list"

/-- The reason substring the tests assert for a frame of the wrong length. -/
def reasonWrongLength : String := "CALL frame must have length 4"

/-- The reason substring the tests assert for a wrong MessageTypeId. -/
def reasonWrongMessageType : String := "MessageTypeId must be 2 (CALL)"

/-- The reason substring the tests assert for a missing or empty uid. -/
def reasonEmptyUid : String := "CALL uid must be a non-empty string"

/-- The reason substring the tests assert for a missing or empty action. -/
def reasonEmptyAction : String := "CALL action must be a non-empty string"

/-- The reason substring the tests assert for a non-object payload. -/
def reasonPayloadNotObject : String := "CALL payload must be an object"

/-- Python `isinstance(x, str) and x` on a frame element. -/
def isNonEmptyStr : JsonValue → Bool
  | .jStr s => !(s == "")
  | _ => false

/-- C1: validate_call applied to the frame built by make_call(uid, action, payload),
for non-empty uid and action and an object payload, succeeds and returns
exactly (uid, action, payload). -/
theorem validate_call_make_call_roundtrip (uid action : String)
    (payload : List (String × JsonValue)) (hu : uid ≠ "") (ha : action ≠ "") :
    validate_call (make_call uid action payload) = .ok (uid, action, payload) := by
  unfold make_call validate_call
  simp [pyEqInt, hu, ha]

/-- C1 witness: the round-trip evaluated at a concrete frame. -/
theorem validate_call_make_call_roundtrip_witness :
    validate_call (make_call "u1" "Heartbeat" []) = .ok ("u1", "Heartbeat", []) :=
  validate_call_make_call_roundtrip "u1" "Heartbeat" [] (by decide) (by decide)

/-- C2: validate_call checks its six conditions in the source's fixed order; an
input that passes the earlier checks and violates one fails with exactly that
check's message (which is the reason substring asserted by
tests/test_common.py), and the six messages are pairwise distinct. -/
theorem validate_call_first_failure_reasons :
    (∀ m : JsonValue, (∀ xs, m ≠ .jArr xs) → validate_call m = .error reasonNotAList)
  ∧ (∀ xs : List JsonValue, xs.length ≠ 4 →
      validate_call (.jArr xs) = .error reasonWrongLength)
  ∧ (∀ mt u a p : JsonValue, pyEqInt mt 2 = false →
      validate_call (.jArr [mt, u, a, p]) = .error reasonWrongMessageType)
  ∧ (∀ mt u a p : JsonValue, pyEqInt mt 2 = true → isNonEmptyStr u = false →
      validate_call (.jArr [mt, u, a, p]) = .error reasonEmptyUid)
  ∧ (∀ mt u a p : JsonValue, pyEqInt mt 2 = true → isNonEmptyStr u = true →
      isNonEmptyStr a = false →
      validate_call (.jArr [mt, u, a, p]) = .error reasonEmptyAction)
  ∧ (∀ mt u a p : JsonValue, pyEqInt mt 2 = true → isNonEmptyStr u = true →
      isNonEmptyStr a = true → (∀ f, p ≠ .jObj f) →
      validate_call (.jArr [mt, u, a, p]) = .error reasonPayloadNotObject)
  ∧ List.Pairwise (fun x y => x ≠ y)
      [reasonNotAList, reasonWrongLength, reasonWrongMessageType,
       reasonEmptyUid, reasonEmptyAction, reasonPayloadNotObject] := by
  refine ⟨?_, ?_, ?_, ?_, ?_, ?_, ?_⟩
  · intro m h
    cases m with
    | jArr xs => exact absurd rfl (h xs)
    | jNull => rfl
    | jBool b => rfl
    | jInt n => rfl
    | jStr s => rfl
    | jObj f => rfl
  · intro xs h
    match xs, h with
    | [], _ => rfl
    | [_], _ => rfl
    | [_, _], _ => rfl
    | [_, _, _], _ => rfl
    | _ :: _ :: _ :: _ :: _ :: _, _ => rfl
    | [a, b, c, d], h => exact absurd rfl h
  · intro mt u a p h
    unfold validate_call
    simp [h, reasonWrongMessageType]
  · intro mt u a p h hu
    unfold validate_call
    cases u with
    | jStr s =>
      have hs : s = "" := by simpa [isNonEmptyStr] using hu
      simp [h, hs, reasonEmptyUid]
    | jNull => simp [h, reasonEmptyUid]
    | jBool b => simp [h, reasonEmptyUid]
    | jInt n => simp [h, reasonEmptyUid]
    | jArr xs => simp [h, reasonEmptyUid]
    | jObj f => simp [h, reasonEmptyUid]
  · intro mt u a p h hu ha
    unfold validate_call
    cases u with
    | jStr su =>
      have hs : ¬ su = "" := by simpa [isNonEmptyStr] using hu
      cases a with
      | jStr sa =>
        have hsa : sa = "" := by simpa [isNonEmptyStr] using ha
        simp [h, hs, hsa, reasonEmptyAction]
      | jNull => simp [h, hs, reasonEmptyAction]
      | jBool b => simp [h, hs, reasonEmptyAction]
      | jInt n => simp [h, hs, reasonEmptyAction]
      | jArr xs => simp [h, hs, reasonEmptyAction]
      | jObj f => simp [h, hs, reasonEmptyAction]
    | jNull => simp [isNonEmptyStr] at hu
    | jBool b => simp [isNonEmptyStr] at hu
    | jInt n => simp [isNonEmptyStr] at hu
    | jArr xs => simp [isNonEmptyStr] at hu
    | jObj f => simp [isNonEmptyStr] at hu
  · intro mt u a p h hu ha hp
    unfold validate_call
    cases u with
    | jStr su =>
      have hs : ¬ su = "" := by simpa [isNonEmptyStr] using hu
      cases a with
      | jStr sa =>
        have hsa : ¬ sa = "" := by simpa [isNonEmptyStr] using ha
        cases p with
        | jObj f => exact absurd rfl (hp f)
        | jNull => simp [h, hs, hsa, reasonPayloadNotObject]
        | jBool b => simp [h, hs, hsa, reasonPayloadNotObject]
        | jInt n => simp [h, hs, hsa, reasonPayloadNotObject]
        | jStr s => simp [h, hs, hsa, reasonPayloadNotObject]
        | jArr xs => simp [h, hs, hsa, reasonPayloadNotObject]
      | jNull => simp [isNonEmptyStr] at ha
      | jBool b => simp [isNonEmptyStr] at ha
      | jInt n => simp [isNonEmptyStr] at ha
      | jArr xs => simp [isNonEmptyStr] at ha
      | jObj f => simp [isNonEmptyStr] at ha
    | jNull => simp [isNonEmptyStr] at hu
    | jBool b => simp [isNonEmptyStr] at hu
    | jInt n => simp [isNonEmptyStr] at hu
    | jArr xs => simp [isNonEmptyStr] at hu
    | jObj f => simp [isNonEmptyStr] at hu
  · decide

/-- C2 witness: the six malformed inputs of tests/test_common.py, each failing
with its own reason. -/
theorem validate_call_first_failure_reasons_witness :
    validate_call (.jStr "bad") = .error reasonNotAList
  ∧ validate_call (.jArr [.jInt 2, .jStr "u"]) = .error reasonWrongLength
  ∧ validate_call (.jArr [.jInt 3, .jStr "u", .jStr "Heartbeat", .jObj []])
      = .error reasonWrongMessageType
  ∧ validate_call (.jArr [.jInt 2, .jStr "", .jStr "Heartbeat", .jObj []])
      = .error reasonEmptyUid
  ∧ validate_call (.jArr [.jInt 2, .jStr "u", .jStr "", .jObj []])
      = .error reasonEmptyAction
  ∧ validate_call (.jArr [.jInt 2, .jStr "u", .jStr "Heartbeat", .jStr "nope"])
      = .error reasonPayloadNotObject := by
  obtain ⟨h1, h2, h3, h4, h5, h6, _⟩ := validate_call_first_failure_reasons
  refine ⟨h1 _ (fun xs h => by cases h), h2 [.jInt 2, .jStr "u"] (by decide),
    h3 _ _ _ _ (by decide), h4 _ _ _ _ (by decide) (by decide),
    h5 _ _ _ _ (by decide) (by decide) (by decide),
    h6 _ _ _ _ (by decide) (by decide) (by decide) (fun f h => by cases h)⟩

/-- The four frame kinds of the spec's non-failing classifier. -/
inductive FrameKind where
  | isCall
  | isCallResult
  | isCallError
  | unknown
  deriving DecidableEq

/-- Modelled from the spec: the CallError arm of the classifier. The repository
implements no CallError recognizer (common.py has only is_call and
is_call_result), so this arm follows the spec's words: first array element 4,
length at least 5. -/
def isCallErrorShape : JsonValue → Bool
  | .jArr (x :: rest) => decide ((x :: rest).length ≥ 5) && pyEqInt x 4
  | _ => false

/-- Modelled from the spec: classify(value), branching on frame kind by first
array element and minimum length, never failing. The Call and CallResult arms
are the source predicates is_call and is_call_result; the CallError arm is
isCallErrorShape above. -/
def classify (v : JsonValue) : FrameKind :=
  if is_call v then .isCall
  else if is_call_result v then .isCallResult
  else if isCallErrorShape v then .isCallError
  else .unknown

theorem pyEqInt_inj {x : JsonValue} {m n : Int}
    (hm : pyEqInt x m = true) (hn : pyEqInt x n = true) : m = n := by
  cases x with
  | jNull => simp [pyEqInt] at hm
  | jBool b =>
    cases b with
    | false => simp [pyEqInt] at hm hn; omega
    | true => simp [pyEqInt] at hm hn; omega
  | jInt k => simp [pyEqInt] at hm hn; omega
  | jStr s => simp [pyEqInt] at hm
  | jArr xs => simp [pyEqInt] at hm
  | jObj f => simp [pyEqInt] at hm

theorem is_call_shape (v : JsonValue) : is_call v = true ↔
    ∃ x rest, v = .jArr (x :: rest) ∧ (x :: rest).length = 4 ∧ pyEqInt x 2 = true := by
  cases v with
  | jArr items =>
    cases items with
    | nil => simp [is_call]
    | cons x rest =>
      simp [is_call]
      constructor
      · intro h
        exact ⟨x, rest, ⟨rfl, rfl⟩, h⟩
      · rintro ⟨y, ys, ⟨rfl, rfl⟩, h⟩
        exact h
  | jNull => simp [is_call]
  | jBool b => simp [is_call]
  | jInt n => simp [is_call]
  | jStr s => simp [is_call]
  | jObj f => simp [is_call]

theorem is_call_result_shape (v : JsonValue) : is_call_result v = true ↔
    ∃ x rest, v = .jArr (x :: rest) ∧ (x :: rest).length ≥ 3 ∧ pyEqInt x 3 = true := by
  cases v with
  | jArr items =>
    cases items with
    | nil => simp [is_call_result]
    | cons x rest =>
      simp [is_call_result]
      constructor
      · intro h
        exact ⟨x, rest, ⟨rfl, rfl⟩, h⟩
      · rintro ⟨y, ys, ⟨rfl, rfl⟩, h⟩
        exact h
  | jNull => simp [is_call_result]
  | jBool b => simp [is_call_result]
  | jInt n => simp [is_call_result]
  | jStr s => simp [is_call_result]
  | jObj f => simp [is_call_result]

theorem isCallErrorShape_shape (v : JsonValue) : isCallErrorShape v = true ↔
    ∃ x rest, v = .jArr (x :: rest) ∧ (x :: rest).length ≥ 5 ∧ pyEqInt x 4 = true := by
  cases v with
  | jArr items =>
    cases items with
    | nil => simp [isCallErrorShape]
    | cons x rest =>
      simp [isCallErrorShape]
      constructor
      · intro h
        exact ⟨x, rest, ⟨rfl, rfl⟩, h⟩
      · rintro ⟨y, ys, ⟨rfl, rfl⟩, h⟩
        exact h
  | jNull => simp [isCallErrorShape]
  | jBool b => simp [isCallErrorShape]
  | jInt n => simp [isCallErrorShape]
  | jStr s => simp [isCallErrorShape]
  | jObj f => simp [isCallErrorShape]

theorem is_call_not_result {v : JsonValue} (h : is_call v = true) :
    is_call_result v = false := by
  obtain ⟨x, rest, rfl, hlen, hp⟩ := (is_call_shape v).mp h
  by_contra hb
  have hb' : is_call_result (.jArr (x :: rest)) = true := by
    cases hres : is_call_result (.jArr (x :: rest)) with
    | false => exact absurd hres hb
    | true => rfl
  obtain ⟨y, ys, heq, hlen', hp'⟩ := (is_call_result_shape _).mp hb'
  obtain ⟨rfl, rfl⟩ : x = y ∧ rest = ys := by simpa using heq
  exact absurd (pyEqInt_inj hp hp') (by decide)

theorem is_call_not_error {v : JsonValue} (h : is_call v = true) :
    isCallErrorShape v = false := by
  obtain ⟨x, rest, rfl, hlen, hp⟩ := (is_call_shape v).mp h
  by_contra hb
  have hb' : isCallErrorShape (.jArr (x :: rest)) = true := by
    cases hres : isCallErrorShape (.jArr (x :: rest)) with
    | false => exact absurd hres hb
    | true => rfl
  obtain ⟨y, ys, heq, hlen', hp'⟩ := (isCallErrorShape_shape _).mp hb'
  obtain ⟨rfl, rfl⟩ : x = y ∧ rest = ys := by simpa using heq
  exact absurd (pyEqInt_inj hp hp') (by decide)

theorem is_result_not_error {v : JsonValue} (h : is_call_result v = true) :
    isCallErrorShape v = false := by
  obtain ⟨x, rest, rfl, hlen, hp⟩ := (is_call_result_shape v).mp h
  by_contra hb
  have hb' : isCallErrorShape (.jArr (x :: rest)) = true := by
    cases hres : isCallErrorShape (.jArr (x :: rest)) with
    | false => exact absurd hres hb
    | true => rfl
  obtain ⟨y, ys, heq, hlen', hp'⟩ := (isCallErrorShape_shape _).mp hb'
  obtain ⟨rfl, rfl⟩ : x = y ∧ rest = ys := by simpa using heq
  exact absurd (pyEqInt_inj hp hp') (by decide)

/-- C8: classify returns IsCall exactly on sequences of length 4 with first
element 2 (the is_call predicate), IsCallResult exactly on sequences of length
at least 3 with first element 3 (the is_call_result predicate), IsCallError
exactly on sequences of length at least 5 with first element 4; being a total
function it fails on no input. -/
theorem classify_frame_kinds (v : JsonValue) :
    (classify v = .isCall ↔ is_call v = true)
  ∧ (classify v = .isCallResult ↔ is_call_result v = true)
  ∧ (classify v = .isCall ↔
      ∃ x rest, v = .jArr (x :: rest) ∧ (x :: rest).length = 4 ∧ pyEqInt x 2 = true)
  ∧ (classify v = .isCallResult ↔
      ∃ x rest, v = .jArr (x :: rest) ∧ (x :: rest).length ≥ 3 ∧ pyEqInt x 3 = true)
  ∧ (classify v = .isCallError ↔
      ∃ x rest, v = .jArr (x :: rest) ∧ (x :: rest).length ≥ 5 ∧ pyEqInt x 4 = true) := by
  have hcall : classify v = .isCall ↔ is_call v = true := by
    constructor
    · intro h
      by_contra hb
      have hA : is_call v = false := by
        cases hres : is_call v with
        | false => rfl
        | true => exact absurd hres hb
      unfold classify at h
      rw [hA] at h
      simp only [Bool.false_eq_true, if_false] at h
      by_cases hB : is_call_result v = true
      · rw [hB] at h; simp at h
      · have hB' : is_call_result v = false := by
          cases hres : is_call_result v with
          | false => rfl
          | true => exact absurd hres hB
        rw [hB'] at h
        simp only [Bool.false_eq_true, if_false] at h
        by_cases hC : isCallErrorShape v = true
        · rw [hC] at h; simp at h
        · have hC' : isCallErrorShape v = false := by
            cases hres : isCallErrorShape v with
            | false => rfl
            | true => exact absurd hres hC
          rw [hC'] at h
          simp at h
    · intro h
      simp [classify, h]
  have hresult : classify v = .isCallResult ↔ is_call_result v = true := by
    constructor
    · intro h
      by_contra hb
      have hB : is_call_result v = false := by
        cases hres : is_call_result v with
        | false => rfl
        | true => exact absurd hres hb
      unfold classify at h
      rw [hB] at h
      by_cases hA : is_call v = true
      · rw [hA] at h; simp at h
      · have hA' : is_call v = false := by
          cases hres : is_call v with
          | false => rfl
          | true => exact absurd hres hA
        rw [hA'] at h
        simp only [Bool.false_eq_true, if_false] at h
        by_cases hC : isCallErrorShape v = true
        · rw [hC] at h; simp at h
        · have hC' : isCallErrorShape v = false := by
            cases hres : isCallErrorShape v with
            | false => rfl
            | true => exact absurd hres hC
          rw [hC'] at h
          simp at h
    · intro h
      have hA : is_call v = false := by
        by_contra hb
        have hA' : is_call v = true := by
          cases hres : is_call v with
          | false => exact absurd hres hb
          | true => rfl
        rw [is_call_not_result hA'] at h
        cases h
      simp [classify, hA, h]
  have herror : classify v = .isCallError ↔ isCallErrorShape v = true := by
    constructor
    · intro h
      by_contra hb
      have hC : isCallErrorShape v = false := by
        cases hres : isCallErrorShape v with
        | false => rfl
        | true => exact absurd hres hb
      unfold classify at h
      rw [hC] at h
      by_cases hA : is_call v = true
      · rw [hA] at h; simp at h
      · have hA' : is_call v = false := by
          cases hres : is_call v with
          | false => rfl
          | true => exact absurd hres hA
        rw [hA'] at h
        simp only [Bool.false_eq_true, if_false] at h
        by_cases hB : is_call_result v = true
        · rw [hB] at h; simp at h
        · have hB' : is_call_result v = false := by
            cases hres : is_call_result v with
            | false => rfl
            | true => exact absurd hres hB
          rw [hB'] at h
          simp at h
    · intro h
      have hA : is_call v = false := by
        by_contra hb
        have hA' : is_call v = true := by
          cases hres : is_call v with
          | false => exact absurd hres hb
          | true => rfl
        rw [is_call_not_error hA'] at h
        cases h
      have hB : is_call_result v = false := by
        by_contra hb
        have hB' : is_call_result v = true := by
          cases hres : is_call_result v with
          | false => exact absurd hres hb
          | true => rfl
        rw [is_result_not_error hB'] at h
        cases h
      simp [classify, hA, hB, h]
  exact ⟨hcall, hresult, hcall.trans (is_call_shape v),
    hresult.trans (is_call_result_shape v), herror.trans (isCallErrorShape_shape v)⟩

/-- C8 witness: the classifier evaluated on concrete frames of each kind. -/
theorem classify_frame_kinds_witness :
    classify (.jArr [.jInt 2, .jStr "u", .jStr "Heartbeat", .jObj []]) = .isCall
  ∧ classify (.jArr [.jInt 3, .jStr "u", .jObj []]) = .isCallResult
  ∧ classify (.jArr [.jInt 4, .jStr "u", .jStr "NotSupported", .jStr "d", .jObj []])
      = .isCallError := by
  refine ⟨(classify_frame_kinds _).1.mpr (by decide),
    (classify_frame_kinds _).2.1.mpr (by decide), ?_⟩
  exact (classify_frame_kinds _).2.2.2.2.mpr
    ⟨.jInt 4, [.jStr "u", .jStr "NotSupported", .jStr "d", .jObj []], rfl,
     by decide, by decide⟩

/-!
Server model (server.py). The per-message handling of handle_client is
embedded as a state-transition function over the module-level mutable state
(_next_transaction_id, _active_transactions). Each processed message produces
one Outcome: a CALLRESULT reply, a CALLERROR frame (the message loop
continues), or an error-close (send the text, close(code=1002), return). The
current time is a parameter, standing for utc_now_iso_z().
-/

/-- One entry of _active_transactions: the dict stored per transaction id. -/
structure TxEntry where
  chargePointId : String
  connectorId : JsonValue
  meterStart : JsonValue

/-- The server's module-level mutable state: _next_transaction_id and
_active_transactions. -/
structure ServerState where
  nextTransactionId : Int
  activeTransactions : List (Int × TxEntry)

/-- Module initialization: _next_transaction_id = 1, _active_transactions = {}. -/
def serverInit : ServerState := { nextTransactionId := 1, activeTransactions := [] }

/-- Python dict assignment d[k] = v. -/
def dictSet (d : List (Int × TxEntry)) (k : Int) (v : TxEntry) : List (Int × TxEntry) :=
  (d.filter (fun kv => !(kv.1 == k))) ++ [(k, v)]

/-- Python d.pop(k, None): drop the entry at key k if present. -/
def dictPop (d : List (Int × TxEntry)) (k : Int) : List (Int × TxEntry) :=
  d.filter (fun kv => !(kv.1 == k))

/-- The text and close code sent by _send_error_and_close. -/
structure CloseFrame where
  text : String
  code : Nat

/-- What one handled message makes the server do next. -/
inductive Outcome where
  | reply (frame : JsonValue)
  | callErrorFrame (frame : JsonValue)
  | errClose (c : CloseFrame)

/-- server._send_error_and_close: send the text, then close(code=1002, reason=text). -/
def send_error_and_close (text : String) : Outcome :=
  .errClose { text := text, code := 1002 }

/-- server._call_error: the CALLERROR frame [4, uid, code, description, {}]. -/
def call_error (uid code description : String) : JsonValue :=
  .jArr [.jInt 4, .jStr uid, .jStr code, .jStr description, .jObj []]

/-- The description string of the NotSupported CALLERROR in server.handle_client. -/
def notSupportedDescription : String :=
  "Only BootNotification, Heartbeat, StatusNotification, StartTransaction, and StopTransaction are supported"

/-- Whether the outcome ends the connection (the handler returns) rather than
letting the per-connection message loop continue. -/
def closesConnection : Outcome → Bool
  | .errClose _ => true
  | _ => false

/-- server.HEARTBEAT_INTERVAL_SECONDS. -/
def HEARTBEAT_INTERVAL_SECONDS : Int := 10

/-- The action dispatch of server.handle_client on a validated CALL
(uid, action, payload), for the connection identified by chargePointId,
with `now` standing for utc_now_iso_z(). Returns the outcome and the new
module state. -/
def handle_call (st : ServerState) (chargePointId now uid action : String)
    (payload : List (String × JsonValue)) : Outcome × ServerState :=
  if action == "BootNotification" then
    (.reply (make_call_result uid
      [("status", .jStr "Accepted"), ("currentTime", .jStr now),
       ("interval", .jInt HEARTBEAT_INTERVAL_SECONDS)]), st)
  else if action == "Heartbeat" then
    (.reply (make_call_result uid [("currentTime", .jStr now)]), st)
  else if action == "StatusNotification" then
    let connectorId := pyGet payload "connectorId"
    let status := pyGet payload "status"
    let errorCode := pyGet payload "errorCode"
    if !(inConnectorRange connectorId) then
      (send_error_and_close "ERROR: connectorId must be 0 or 1", st)
    else if !(optEqStr status "Available") then
      (send_error_and_close "ERROR: status must be Available", st)
    else if !(optEqStr errorCode "NoError") then
      (send_error_and_close "ERROR: errorCode must be NoError", st)
    else
      (.reply (make_call_result uid []), st)
  else if action == "StartTransaction" then
    let connectorId := pyGet payload "connectorId"
    let idTag := pyGet payload "idTag"
    let meterStart := pyGet payload "meterStart"
    let timestamp := pyGet payload "timestamp"
    if !(inConnectorRange connectorId) then
      (send_error_and_close "ERROR: connectorId must be 0 or 1", st)
    else if !(isNonEmptyStrOpt idTag) then
      (send_error_and_close "ERROR: idTag must be a non-empty string", st)
    else if !(isPyIntOpt meterStart) then
      (send_error_and_close "ERROR: meterStart must be an integer", st)
    else if !(isNonEmptyStrOpt timestamp) then
      (send_error_and_close "ERROR: timestamp must be a string", st)
    else
      let transactionId := st.nextTransactionId
      let entry : TxEntry :=
        { chargePointId := chargePointId,
          connectorId := connectorId.getD .jNull,
          meterStart := meterStart.getD .jNull }
      (.reply (make_call_result uid
        [("transactionId", .jInt transactionId),
         ("idTagInfo", .jObj [("status", .jStr "Accepted")])]),
       { nextTransactionId := transactionId + 1,
         activeTransactions := dictSet st.activeTransactions transactionId entry })
  else if action == "StopTransaction" then
    let transactionId := pyGet payload "transactionId"
    let meterStop := pyGet payload "meterStop"
    let timestamp := pyGet payload "timestamp"
    if !(isPyIntOpt transactionId) then
      (send_error_and_close "ERROR: transactionId must be an integer", st)
    else if !(isPyIntOpt meterStop) then
      (send_error_and_close "ERROR: meterStop must be an integer", st)
    else if !(isNonEmptyStrOpt timestamp) then
      (send_error_and_close "ERROR: timestamp must be a string", st)
    else
      (.reply (make_call_result uid [("idTagInfo", .jObj [("status", .jStr "Accepted")])]),
       { st with activeTransactions :=
           dictPop st.activeTransactions ((transactionId.bind pyToInt).getD 0) })
  else
    (.callErrorFrame (call_error uid "NotSupported" notSupportedDescription), st)

/-- One iteration of the message loop in server.handle_client, applied to an
already JSON-decoded message: validate the CALL envelope (error-close on
failure), then dispatch on the action. -/
def handle_data (st : ServerState) (chargePointId now : String) (data : JsonValue) :
    Outcome × ServerState :=
  match validate_call data with
  | .error e => (send_error_and_close ("ERROR: " ++ e), st)
  | .ok (uid, action, payload) => handle_call st chargePointId now uid action payload

/-- One decoded message reaching the server, with the connection's charge point
id and the instant at which it is handled. -/
structure ServerInput where
  chargePointId : String
  now : String
  data : JsonValue

/-- The sequence of (outcome, state after) pairs produced by handling a list of
messages in order against the process-wide state. -/
def runServer : ServerState → List ServerInput → List (Outcome × ServerState)
  | _, [] => []
  | st, i :: rest =>
    let r := handle_data st i.chargePointId i.now i.data
    r :: runServer r.2 rest

/-- The result payload of a CALLRESULT reply outcome, if any. -/
def replyResultPayload : Outcome → Option (List (String × JsonValue))
  | .reply (.jArr [_, _, .jObj p]) => some p
  | _ => none

/-- The transactionId an outcome hands to the client: the transactionId field
of a CALLRESULT reply payload, when it is an int. Only accepted
StartTransaction replies carry one. -/
def assignedTxId (o : Outcome) : Option Int :=
  match replyResultPayload o with
  | some p =>
    match pyGet p "transactionId" with
    | some (.jInt t) => some t
    | _ => none
  | none => none

theorem handle_data_step (st : ServerState) (cp now : String) (d : JsonValue) :
    (assignedTxId (handle_data st cp now d).1 = some st.nextTransactionId
       ∧ (handle_data st cp now d).2.nextTransactionId = st.nextTransactionId + 1)
  ∨ (assignedTxId (handle_data st cp now d).1 = none
       ∧ (handle_data st cp now d).2.nextTransactionId = st.nextTransactionId) := by
  unfold handle_data
  cases hv : validate_call d with
  | error e => exact Or.inr ⟨rfl, rfl⟩
  | ok t =>
    obtain ⟨uid, action, p⟩ := t
    simp only
    unfold handle_call
    dsimp only
    split_ifs <;> first
      | exact Or.inl ⟨rfl, rfl⟩
      | exact Or.inr ⟨rfl, rfl⟩

theorem runServer_state_mono :
    ∀ (inputs : List ServerInput) (st : ServerState) (k : Nat) (o : Outcome)
      (st' : ServerState), (runServer st inputs).get? k = some (o, st') →
      st.nextTransactionId ≤ st'.nextTransactionId := by
  intro inputs
  induction inputs with
  | nil => intro st k o st' h; simp [runServer] at h
  | cons i rest ih =>
    intro st k o st' h
    cases k with
    | zero =>
      simp only [runServer, List.get?_cons_zero, Option.some.injEq] at h
      rcases handle_data_step st i.chargePointId i.now i.data with ⟨_, h2⟩ | ⟨_, h2⟩ <;>
        rw [h] at h2 <;> simp at h2 <;> omega
    | succ k' =>
      simp only [runServer, List.get?_cons_succ] at h
      have h1 := ih _ k' o st' h
      rcases handle_data_step st i.chargePointId i.now i.data with ⟨_, h2⟩ | ⟨_, h2⟩ <;>
        omega

theorem runServer_assigned_bound :
    ∀ (inputs : List ServerInput) (st : ServerState) (k : Nat) (o : Outcome)
      (st' : ServerState) (a : Int), (runServer st inputs).get? k = some (o, st') →
      assignedTxId o = some a →
      st.nextTransactionId ≤ a ∧ a < st'.nextTransactionId := by
  intro inputs
  induction inputs with
  | nil => intro st k o st' a h ha; simp [runServer] at h
  | cons i rest ih =>
    intro st k o st' a h ha
    cases k with
    | zero =>
      simp only [runServer, List.get?_cons_zero, Option.some.injEq] at h
      rcases handle_data_step st i.chargePointId i.now i.data with ⟨h1, h2⟩ | ⟨h1, h2⟩ <;>
        rw [h] at h1 h2 <;> simp at h1 h2
      · rw [ha] at h1
        have := Option.some.inj h1
        omega
      · rw [ha] at h1; cases h1
    | succ k' =>
      simp only [runServer, List.get?_cons_succ] at h
      have h1 := ih _ k' o st' a h ha
      rcases handle_data_step st i.chargePointId i.now i.data with ⟨_, h2⟩ | ⟨_, h2⟩ <;>
        omega

theorem runServer_assigned_lt :
    ∀ (inputs : List ServerInput) (st : ServerState) (i j : Nat) (oi : Outcome)
      (si : ServerState) (oj : Outcome) (sj : ServerState) (a b : Int), i < j →
      (runServer st inputs).get? i = some (oi, si) →
      (runServer st inputs).get? j = some (oj, sj) →
      assignedTxId oi = some a → assignedTxId oj = some b → a < b := by
  intro inputs
  induction inputs with
  | nil => intro st i j oi si oj sj a b hij hi hj ha hb; simp [runServer] at hi
  | cons inp rest ih =>
    intro st i j oi si oj sj a b hij hi hj ha hb
    cases j with
    | zero => omega
    | succ j' =>
      simp only [runServer, List.get?_cons_succ] at hj
      cases i with
      | zero =>
        simp only [runServer, List.get?_cons_zero, Option.some.injEq] at hi
        rcases handle_data_step st inp.chargePointId inp.now inp.data
          with ⟨h1, h2⟩ | ⟨h1, h2⟩ <;> rw [hi] at h1 h2 <;> simp at h1 h2
        · rw [ha] at h1
          have ha' := Option.some.inj h1
          rw [hi] at hj
          simp only at hj
          have hbnd := runServer_assigned_bound rest _ j' oj sj b hj hb
          omega
        · rw [ha] at h1; cases h1
      | succ i' =>
        simp only [runServer, List.get?_cons_succ] at hi
        exact ih _ i' j' oi si oj sj a b (by omega) hi hj ha hb

/-- C3: the transaction-id counter starts at 1 and is incremented exactly when
a StartTransaction is accepted (the assigned id is the counter's value); hence
along any run of the process the assigned transactionIds are strictly
increasing in handling order and no id is ever assigned twice, regardless of
intervening StopTransactions. -/
theorem start_transaction_ids_strictly_increase :
    serverInit.nextTransactionId = 1
  ∧ (∀ st cp now d a, assignedTxId (handle_data st cp now d).1 = some a →
      a = st.nextTransactionId
      ∧ (handle_data st cp now d).2.nextTransactionId = st.nextTransactionId + 1)
  ∧ (∀ inputs i j oi si oj sj a b, i < j →
      (runServer serverInit inputs).get? i = some (oi, si) →
      (runServer serverInit inputs).get? j = some (oj, sj) →
      assignedTxId oi = some a → assignedTxId oj = some b → a < b)
  ∧ (∀ inputs i j oi si oj sj a b, i ≠ j →
      (runServer serverInit inputs).get? i = some (oi, si) →
      (runServer serverInit inputs).get? j = some (oj, sj) →
      assignedTxId oi = some a → assignedTxId oj = some b → a ≠ b) := by
  refine ⟨rfl, ?_, ?_, ?_⟩
  · intro st cp now d a ha
    rcases handle_data_step st cp now d with ⟨h1, h2⟩ | ⟨h1, h2⟩
    · rw [ha] at h1
      have := Option.some.inj h1
      constructor <;> omega
    · rw [ha] at h1; cases h1
  · intro inputs i j oi si oj sj a b hij hi hj ha hb
    exact runServer_assigned_lt inputs serverInit i j oi si oj sj a b hij hi hj ha hb
  · intro inputs i j oi si oj sj a b hij hi hj ha hb
    rcases Nat.lt_or_ge i j with h | h
    · have := runServer_assigned_lt inputs serverInit i j oi si oj sj a b h hi hj ha hb
      omega
    · have hj' : j < i := by omega
      have := runServer_assigned_lt inputs serverInit j i oj sj oi si b a hj' hj hi hb ha
      omega

/-- C3 witness: a run of two accepted StartTransactions assigns ids 1 then 2. -/
theorem start_transaction_ids_strictly_increase_witness : (1 : Int) < 2 :=
  start_transaction_ids_strictly_increase.2.2.1
    [⟨"CP_1", "t1", .jArr [.jInt 2, .jStr "u1", .jStr "StartTransaction",
        .jObj [("connectorId", .jInt 1), ("idTag", .jStr "TEST"),
               ("meterStart", .jInt 0), ("timestamp", .jStr "t")]]⟩,
     ⟨"CP_1", "t2", .jArr [.jInt 2, .jStr "u2", .jStr "StartTransaction",
        .jObj [("connectorId", .jInt 1), ("idTag", .jStr "TEST"),
               ("meterStart", .jInt 0), ("timestamp", .jStr "t")]]⟩]
    0 1 _ _ _ _ 1 2 (by decide) rfl rfl rfl rfl

/-- C5: a StopTransaction whose payload carries an int transactionId, an int
meterStop and a non-empty string timestamp is answered with the CALLRESULT
payload containing idTagInfo.status Accepted, the registry entry for that
transactionId is dropped if present, and the counter is untouched; when the id
is unknown the removal is the identity, so the handler succeeds identically. -/
theorem stop_transaction_accepted_and_idempotent
    (st : ServerState) (cp now uid : String) (p : List (String × JsonValue))
    (t m : Int) (ts : String)
    (ht : pyGet p "transactionId" = some (.jInt t))
    (hm : pyGet p "meterStop" = some (.jInt m))
    (hts : pyGet p "timestamp" = some (.jStr ts)) (hne : ts ≠ "") :
    handle_call st cp now uid "StopTransaction" p
      = (.reply (make_call_result uid [("idTagInfo", .jObj [("status", .jStr "Accepted")])]),
         { st with activeTransactions := dictPop st.activeTransactions t })
  ∧ ((∀ e ∈ st.activeTransactions, e.1 ≠ t) →
      dictPop st.activeTransactions t = st.activeTransactions) := by
  constructor
  · unfold handle_call
    simp [ht, hm, hts, hne, isPyIntOpt, isPyInt, isNonEmptyStrOpt, pyToInt]
  · intro hall
    unfold dictPop
    apply List.filter_eq_self.mpr
    intro e he
    simpa using hall e he

/-- C5 witness: stopping an id absent from the registry still succeeds and
leaves the registry unchanged. -/
theorem stop_transaction_accepted_and_idempotent_witness :
    handle_call ⟨3, [(1, ⟨"CP_1", .jInt 1, .jInt 0⟩)]⟩ "CP_1" "now" "u9" "StopTransaction"
        [("transactionId", .jInt 5), ("meterStop", .jInt 42), ("timestamp", .jStr "t"),
         ("idTag", .jStr "TEST"), ("reason", .jStr "Local")]
      = (.reply (make_call_result "u9" [("idTagInfo", .jObj [("status", .jStr "Accepted")])]),
         { nextTransactionId := 3,
           activeTransactions := dictPop [(1, ⟨"CP_1", .jInt 1, .jInt 0⟩)] 5 })
  ∧ ((∀ e ∈ [((1 : Int), TxEntry.mk "CP_1" (.jInt 1) (.jInt 0))], e.1 ≠ (5 : Int)) →
      dictPop [(1, ⟨"CP_1", .jInt 1, .jInt 0⟩)] 5 = [(1, ⟨"CP_1", .jInt 1, .jInt 0⟩)]) :=
  stop_transaction_accepted_and_idempotent _ _ _ _ _ 5 42 "t" rfl rfl rfl (by decide)

/-- C6: a StatusNotification whose connectorId is not 0 or 1 makes the server
send the plain text "ERROR: connectorId must be 0 or 1" and close the
connection with code 1002, with the module state (counter and registry)
untouched; the outcome is an error-close, never a CALLERROR frame. -/
theorem status_notification_bad_connector_closes_without_mutation
    (st : ServerState) (cp now uid : String) (p : List (String × JsonValue))
    (h : inConnectorRange (pyGet p "connectorId") = false) :
    handle_call st cp now uid "StatusNotification" p
      = (.errClose { text := "ERROR: connectorId must be 0 or 1", code := 1002 }, st)
  ∧ closesConnection
      (.errClose { text := "ERROR: connectorId must be 0 or 1", code := 1002 }) = true
  ∧ (∀ f : JsonValue,
      Outcome.errClose { text := "ERROR: connectorId must be 0 or 1", code := 1002 }
        ≠ .callErrorFrame f) := by
  refine ⟨?_, rfl, fun f hf => nomatch hf⟩
  unfold handle_call
  simp [h, send_error_and_close]

/-- C6 witness: connectorId = 2 is rejected with the exact text and close code,
mutating nothing. -/
theorem status_notification_bad_connector_witness :
    handle_call ⟨4, [(2, ⟨"CP_1", .jInt 0, .jInt 0⟩)]⟩ "CP_1" "now" "u3" "StatusNotification"
        [("connectorId", .jInt 2), ("status", .jStr "Available"),
         ("errorCode", .jStr "NoError"), ("timestamp", .jStr "t")]
      = (.errClose { text := "ERROR: connectorId must be 0 or 1", code := 1002 },
         ⟨4, [(2, ⟨"CP_1", .jInt 0, .jInt 0⟩)]⟩)
  ∧ closesConnection
      (.errClose { text := "ERROR: connectorId must be 0 or 1", code := 1002 }) = true
  ∧ (∀ f : JsonValue,
      Outcome.errClose { text := "ERROR: connectorId must be 0 or 1", code := 1002 }
        ≠ .callErrorFrame f) :=
  status_notification_bad_connector_closes_without_mutation _ _ _ _ _ rfl

/-- The five actions of the server's dispatch table. -/
def supportedActions : List String :=
  ["BootNotification", "Heartbeat", "StatusNotification", "StartTransaction",
   "StopTransaction"]

/-- C7: a validated CALL whose action is outside the dispatch table is answered
with the CALLERROR frame [4, uid, "NotSupported", description, emptyObject]
echoing the call's uid, the module state is untouched, and the outcome does
not close the connection (the message loop continues). -/
theorem unsupported_action_call_error_keeps_connection
    (st : ServerState) (cp now uid action : String) (p : List (String × JsonValue))
    (h : action ∉ supportedActions) :
    handle_call st cp now uid action p
      = (.callErrorFrame (.jArr [.jInt 4, .jStr uid, .jStr "NotSupported",
          .jStr notSupportedDescription, .jObj []]), st)
  ∧ closesConnection (handle_call st cp now uid action p).1 = false := by
  simp only [supportedActions, List.mem_cons, List.not_mem_nil, or_false] at h
  push_neg at h
  obtain ⟨h1, h2, h3, h4, h5⟩ := h
  have hmain : handle_call st cp now uid action p
      = (.callErrorFrame (.jArr [.jInt 4, .jStr uid, .jStr "NotSupported",
          .jStr notSupportedDescription, .jObj []]), st) := by
    unfold handle_call
    simp [h1, h2, h3, h4, h5, call_error]
  exact ⟨hmain, by rw [hmain]; rfl⟩

/-- C7 witness: the unsupported action Reset gets a NotSupported CALLERROR and
the connection stays open. -/
theorem unsupported_action_call_error_witness :
    handle_call serverInit "CP_1" "now" "u7" "Reset" []
      = (.callErrorFrame (.jArr [.jInt 4, .jStr "u7", .jStr "NotSupported",
          .jStr notSupportedDescription, .jObj []]), serverInit)
  ∧ closesConnection (handle_call serverInit "CP_1" "now" "u7" "Reset" []).1 = false :=
  unsupported_action_call_error_keeps_connection _ _ _ _ _ _ (by decide)

/-- C10: every error-close path of the per-message handler leaves the shared
state exactly as it was: all payload validation happens before any mutation,
so a rejected message never touches the registry or the counter. -/
theorem error_close_preserves_server_state
    (st : ServerState) (cp now : String) (d : JsonValue) (c : CloseFrame)
    (st' : ServerState) (h : handle_data st cp now d = (.errClose c, st')) :
    st' = st := by
  unfold handle_data at h
  cases hv : validate_call d with
  | error e =>
    rw [hv] at h
    simp only [send_error_and_close, Prod.mk.injEq] at h
    exact h.2.symm
  | ok tr =>
    obtain ⟨uid, action, p⟩ := tr
    rw [hv] at h
    simp only at h
    unfold handle_call at h
    dsimp only at h
    split_ifs at h <;>
      first
        | (simp only [send_error_and_close, Prod.mk.injEq] at h; exact h.2.symm)
        | (simp only [Prod.mk.injEq] at h; exact absurd h.1 (fun hq => nomatch hq))

/-- C10 witness: a StopTransaction with a non-int transactionId is rejected and
the state, registry included, is exactly the prior one. -/
theorem error_close_preserves_server_state_witness :
    (⟨7, [(3, ⟨"CP_1", .jInt 1, .jInt 5⟩)]⟩ : ServerState)
      = ⟨7, [(3, ⟨"CP_1", .jInt 1, .jInt 5⟩)]⟩ :=
  error_close_preserves_server_state ⟨7, [(3, ⟨"CP_1", .jInt 1, .jInt 5⟩)]⟩ "CP_1" "now"
    (.jArr [.jInt 2, .jStr "u", .jStr "StopTransaction",
      .jObj [("transactionId", .jStr "bad")]])
    { text := "ERROR: transactionId must be an integer", code := 1002 }
    ⟨7, [(3, ⟨"CP_1", .jInt 1, .jInt 5⟩)]⟩ rfl

/-!
Client model (client.py). main() and _heartbeat_loop are embedded as pure
functions of the decoded responses the server sends back; `none` stands for a
response text that fails json.loads. The uid of each outbound Call is a
parameter, standing for new_uid().
-/

/-- The acceptance test `is_call_result(response) and response[1] == uid`
(source: `if not is_call_result(response) or response[1] != uid`), repeated for
every round-trip in client.main and client._heartbeat_loop. -/
def uid_matched_call_result (uid : String) (r : JsonValue) : Bool :=
  is_call_result r &&
    (match r with
     | .jArr (_ :: u :: _) =>
       (match u with
        | .jStr s => s == uid
        | _ => false)
     | _ => false)

/-- One heartbeat request/response: the uid of the sent Heartbeat Call and the
decoded response. -/
structure HbExchange where
  uid : String
  resp : Option JsonValue

/-- client._heartbeat_loop: the number of iterations that complete
("Heartbeat %s acknowledged"). The loop returns early — completing no further
iterations — at the first invalid-JSON response, non-CALLRESULT frame, uid
mismatch, or payload-extraction failure. -/
def heartbeat_loop : List HbExchange → Nat
  | [] => 0
  | e :: rest =>
    match e.resp with
    | none => 0
    | some r =>
      if !(uid_matched_call_result e.uid r) then 0
      else
        match parse_call_result_payload r with
        | .error _ => 0
        | .ok _ => 1 + heartbeat_loop rest

/-- The decoded responses one client run receives, step by step, with the uids
the client generated for the corresponding Calls. -/
structure ClientEnv where
  bootUid : String
  bootResp : Option JsonValue
  statusUid : String
  statusResp : Option JsonValue
  startUid : String
  startResp : Option JsonValue
  hb : List HbExchange
  stopUid : String
  stopResp : Option JsonValue

/-- Step 1 of client.main: the BootNotification round-trip. On acceptance
(payload.status == "Accepted"), the adopted heartbeat interval:
payload.interval when a positive int, else 10. -/
def bootStep (uid : String) (resp : Option JsonValue) : Option Int :=
  match resp with
  | none => none
  | some r =>
    if !(uid_matched_call_result uid r) then none
    else
      match parse_call_result_payload r with
      | .error _ => none
      | .ok p =>
        if !(optEqStr (pyGet p "status") "Accepted") then none
        else
          some (match pyGet p "interval" with
                | some v =>
                  match pyToInt v with
                  | some n => if n ≤ 0 then 10 else n
                  | none => 10
                | none => 10)

/-- Step 2 of client.main: the StatusNotification round-trip; accepted iff the
response is a uid-matching CALLRESULT whose payload extracts. -/
def statusStep (uid : String) (resp : Option JsonValue) : Bool :=
  match resp with
  | none => false
  | some r =>
    if !(uid_matched_call_result uid r) then false
    else
      match parse_call_result_payload r with
      | .error _ => false
      | .ok _ => true

/-- The client's check `isinstance(id_tag_info, dict) and
id_tag_info.get("status") == "Accepted"`, where id_tag_info is
payload.get("idTagInfo", emptyDict). -/
def idTagInfoAccepted (p : List (String × JsonValue)) : Bool :=
  match (pyGet p "idTagInfo").getD (.jObj []) with
  | .jObj info => optEqStr (pyGet info "status") "Accepted"
  | _ => false

/-- Step 3 of client.main: the StartTransaction round-trip; on acceptance
(int transactionId, idTagInfo.status Accepted) the transactionId stored in the
local SessionState. -/
def startStep (uid : String) (resp : Option JsonValue) : Option Int :=
  match resp with
  | none => none
  | some r =>
    if !(uid_matched_call_result uid r) then none
    else
      match parse_call_result_payload r with
      | .error _ => none
      | .ok p =>
        match pyToInt ((pyGet p "transactionId").getD .jNull) with
        | none => none
        | some tid =>
          if !(idTagInfoAccepted p) then none
          else some tid

/-- Step 5 of client.main: the StopTransaction round-trip; accepted iff
stop_payload.get("idTagInfo", emptyDict).get("status") == "Accepted". -/
def stopStep (uid : String) (resp : Option JsonValue) : Bool :=
  match resp with
  | none => false
  | some r =>
    if !(uid_matched_call_result uid r) then false
    else
      match parse_call_result_payload r with
      | .error _ => false
      | .ok p => idTagInfoAccepted p

/-- client.main: the process exit code of one run, as a function of the
responses. Any step failure returns 1 at that point. After StartTransaction is
accepted the heartbeat task runs; main awaits it before returning 0, but never
examines how many iterations it completed — the await is the discarded let
binding below. -/
def client_run (env : ClientEnv) : Int :=
  match bootStep env.bootUid env.bootResp with
  | none => 1
  | some _interval =>
    if !(statusStep env.statusUid env.statusResp) then 1
    else
      match startStep env.startUid env.startResp with
      | none => 1
      | some _tid =>
        let _completed := heartbeat_loop env.hb
        if !(stopStep env.stopUid env.stopResp) then 1
        else 0

/-- A run in which the server accepts every foreground step but answers the
first heartbeat with a frame that is not a CALLRESULT, so the heartbeat loop
stops after completing 0 of its 3 iterations. -/
def hbCutEnv : ClientEnv :=
  { bootUid := "b1",
    bootResp := some (.jArr [.jInt 3, .jStr "b1",
      .jObj [("status", .jStr "Accepted"), ("currentTime", .jStr "t"),
             ("interval", .jInt 10)]]),
    statusUid := "s1",
    statusResp := some (.jArr [.jInt 3, .jStr "s1", .jObj []]),
    startUid := "x1",
    startResp := some (.jArr [.jInt 3, .jStr "x1",
      .jObj [("transactionId", .jInt 1),
             ("idTagInfo", .jObj [("status", .jStr "Accepted")])]]),
    hb := [⟨"h1", some (.jStr "garbage")⟩,
           ⟨"h2", some (.jArr [.jInt 3, .jStr "h2", .jObj []])⟩,
           ⟨"h3", some (.jArr [.jInt 3, .jStr "h3", .jObj []])⟩],
    stopUid := "p1",
    stopResp := some (.jArr [.jInt 3, .jStr "p1",
      .jObj [("idTagInfo", .jObj [("status", .jStr "Accepted")])]]) }

/-- C4 counterexample: a run whose five foreground steps are all accepted exits
with code 0 even though the heartbeat loop terminated early after 0 of its 3
iterations — an early-stopped heartbeat loop does not prevent a successful
exit. -/
theorem client_run_zero_despite_heartbeat_early_stop :
    client_run hbCutEnv = 0
  ∧ heartbeat_loop hbCutEnv.hb = 0
  ∧ hbCutEnv.hb.length = 3 := ⟨rfl, rfl, rfl⟩

/-- C4 amended: the client's exit code is 0 exactly when steps 1-5
(BootNotification, StatusNotification, StartTransaction, StopTransaction
acceptance) all succeed; the heartbeat loop's outcome never influences the
exit code — its early termination is only logged. -/
theorem client_run_zero_iff_foreground_steps_accepted (env : ClientEnv) :
    (client_run env = 0 ↔
      (bootStep env.bootUid env.bootResp).isSome = true
      ∧ statusStep env.statusUid env.statusResp = true
      ∧ (startStep env.startUid env.startResp).isSome = true
      ∧ stopStep env.stopUid env.stopResp = true)
  ∧ (∀ hb', client_run { env with hb := hb' } = client_run env) := by
  constructor
  · unfold client_run
    cases hb : bootStep env.bootUid env.bootResp with
    | none => simp
    | some i =>
      simp only [Option.isSome_some, true_and]
      cases hs : statusStep env.statusUid env.statusResp with
      | false => simp
      | true =>
        simp only [Bool.not_true, Bool.false_eq_true, if_false, true_and]
        cases hx : startStep env.startUid env.startResp with
        | none => simp
        | some tid =>
          simp only [Option.isSome_some, true_and]
          cases hp : stopStep env.stopUid env.stopResp with
          | false => simp
          | true => simp
  · intro hb'
    rfl

/-- C4 witness: a concrete accepted run exits 0, with any heartbeat responses. -/
theorem client_run_zero_iff_foreground_steps_accepted_witness :
    client_run { hbCutEnv with hb := [] } = 0 := by
  rw [(client_run_zero_iff_foreground_steps_accepted hbCutEnv).2 []]
  exact (client_run_zero_iff_foreground_steps_accepted hbCutEnv).1.mpr
    ⟨rfl, rfl, rfl, rfl⟩

/-- The two activities that issue request/response exchanges on the client's
single connection. -/
inductive Activity where
  | foreground
  | heartbeat
  deriving DecidableEq

/-- One send-then-receive pair issued by client.py: the activity issuing it,
the action of the Call, and whether the pair runs inside `async with ws_lock`. -/
structure ClientExchange where
  activity : Activity
  action : String
  underLock : Bool
  deriving DecidableEq

/-- The send-then-receive pairs of one client run, in program order.
BootNotification, StatusNotification and StartTransaction are sent and awaited
directly on the websocket — ws_lock is created, and the heartbeat task
started, only after StartTransaction is accepted. Each heartbeat iteration
sends and receives inside `async with ws_lock`, and so does the foreground
StopTransaction exchange. -/
def client_exchanges : List ClientExchange :=
  [⟨.foreground, "BootNotification", false⟩,
   ⟨.foreground, "StatusNotification", false⟩,
   ⟨.foreground, "StartTransaction", false⟩,
   ⟨.heartbeat, "Heartbeat", true⟩,
   ⟨.heartbeat, "Heartbeat", true⟩,
   ⟨.heartbeat, "Heartbeat", true⟩,
   ⟨.foreground, "StopTransaction", true⟩]

/-- C9 counterexample: the BootNotification send-then-receive pair is issued by
the foreground sequence without holding the lock, so it is not the case that
every exchange of either activity runs under the mutual-exclusion lock. -/
theorem boot_exchange_not_under_lock :
    client_exchanges.get? 0 = some ⟨.foreground, "BootNotification", false⟩
  ∧ (client_exchanges.all (fun e => e.underLock)) = false := ⟨rfl, rfl⟩

/-- C9 amended: every exchange the heartbeat loop issues and the foreground
StopTransaction exchange — all the exchanges issued while the two activities
share the connection — run under the single lock ws_lock, so a heartbeat
round-trip never interleaves with the StopTransaction round-trip; the only
lockless exchanges are the three foreground steps issued before the heartbeat
task exists. -/
theorem heartbeat_and_stop_exchanges_under_lock :
    (∀ e ∈ client_exchanges,
      (e.activity = .heartbeat ∨ e.action = "StopTransaction") → e.underLock = true)
  ∧ (∀ e ∈ client_exchanges, e.underLock = false →
      e.activity = .foreground
      ∧ (e.action = "BootNotification" ∨ e.action = "StatusNotification"
         ∨ e.action = "StartTransaction")) := by
  constructor <;> decide

/-- C9 witness: the StopTransaction exchange holds the lock. -/
theorem heartbeat_and_stop_exchanges_under_lock_witness :
    (ClientExchange.mk .foreground "StopTransaction" true).underLock = true :=
  heartbeat_and_stop_exchanges_under_lock.1 ⟨.foreground, "StopTransaction", true⟩
    (by decide) (Or.inr rfl)

end OCPP
